import Mathlib

/-!
Verification of the garmin-messenger client library (Python) against its
natural-language specification. The Python source under
`src/clients/python/src/garmin_messenger/` (`auth.py`, `signalr.py`) and
`src/lib/python/src/garmin_messenger/models.py` is shallowly embedded below:
pure logic becomes Lean functions, the stateful parts become explicit state
passing, the network and the scheduler become explicit inputs (response
sequences, per-iteration environments). Real-valued timestamps (Python
floats from `time.time()`) are modelled as rationals.
-/

namespace GarminMessenger

/-! ## JSON values (payloads on the wire and the credential file) -/

/-- A JSON value, as produced by `json.loads` / consumed by the pydantic
validators. Nesting in the payloads the claims touch is of fixed depth, so
no recursion over `JVal` is needed. -/
inductive JVal where
  | str (s : String)
  | num (q : ℚ)
  | obj (fields : List (String × JVal))
  | arr (elems : List JVal)
  | bool (b : Bool)
  | null

/-- Key lookup in a JSON object (Python `dict` access / `in`). -/
def jlookup : List (String × JVal) → String → Option JVal
  | [], _ => none
  | (k, v) :: rest, key => if k = key then some v else jlookup rest key

def asStr : JVal → Option String
  | .str s => some s
  | _ => none

def asNum : JVal → Option ℚ
  | .num q => some q
  | _ => none

/-! ## HermesAuth in-memory state (auth.py) -/

/-- The mutable credential fields of `HermesAuth.__init__`:
`access_token`, `refresh_token`, `instance_id` (each `str | None`) and
`expires_at` (a unix timestamp, `float`, modelled as `ℚ`). -/
structure AuthState where
  access_token : Option String
  refresh_token : Option String
  instance_id : Option String
  expires_at : ℚ
deriving DecidableEq, Repr

/-- Python truthiness of `self.access_token`: `None` and the empty string
are falsy, every other string is truthy. -/
def strTruthy : Option String → Bool
  | none => false
  | some s => !s.isEmpty

/-- `HermesAuth.token_expired` (auth.py lines 244-248):
`if not self.access_token: return True` then
`return time.time() >= self.expires_at - 60` (60-second buffer).
`now` stands for `time.time()`. -/
def token_expired (s : AuthState) (now : ℚ) : Bool :=
  if !strTruthy s.access_token then true
  else decide (now ≥ s.expires_at - 60)

/-! ## Claims C1 and C10: the expiry predicate -/

/-- C1 counterexample: with no access token in memory the predicate returns
`true` even at a time well before `expiresAt - 60`, so the unconditional
biconditional of the claim fails. -/
theorem C1_counterexample :
    token_expired ⟨none, none, none, 1000⟩ 0 = true ∧
      ¬ ((0 : ℚ) ≥ (1000 : ℚ) - 60) := by
  constructor
  · rfl
  · norm_num

/-- C1 (amended): provided an access token is present (non-`None`,
non-empty), `token_expired` returns `true` iff `now ≥ expiresAt - 60`;
in particular at `now = expiresAt - 61` it returns `false` and at
`now = expiresAt - 60` it returns `true`. -/
theorem C1_token_expiry_boundary (s : AuthState)
    (h : strTruthy s.access_token = true) :
    (∀ now : ℚ, token_expired s now = true ↔ now ≥ s.expires_at - 60) ∧
      token_expired s (s.expires_at - 61) = false ∧
      token_expired s (s.expires_at - 60) = true := by
  refine ⟨fun now => ?_, ?_, ?_⟩
  · simp [token_expired, h]
  · simp [token_expired, h]
    linarith
  · simp [token_expired, h]

/-- C1 witness: the amended theorem applied at a concrete state with a
present token, checking both boundaries. -/
theorem C1_token_expiry_boundary_witness :
    token_expired ⟨some "tok", none, none, 1000⟩ (1000 - 61) = false ∧
      token_expired ⟨some "tok", none, none, 1000⟩ (1000 - 60) = true := by
  have h := C1_token_expiry_boundary ⟨some "tok", none, none, 1000⟩ (by decide)
  exact ⟨h.2.1, h.2.2⟩

/-- C10: whenever the in-memory access token is unset (`None` or empty),
`token_expired` is `true` regardless of `expires_at` and the current time;
and the expiry-boundary equation holds exactly under the precondition that
a token is present. -/
theorem C10_absent_token_always_expired :
    (∀ (s : AuthState) (now : ℚ), strTruthy s.access_token = false →
        token_expired s now = true) ∧
      (∀ (s : AuthState) (now : ℚ), strTruthy s.access_token = true →
        (token_expired s now = true ↔ now ≥ s.expires_at - 60)) := by
  constructor
  · intro s now h
    simp [token_expired, h]
  · intro s now h
    simp [token_expired, h]

/-- C10 witness: a state with no access token is reported expired at a
time far before its recorded expiry. -/
theorem C10_absent_token_always_expired_witness :
    token_expired ⟨none, none, none, 5000⟩ 0 = true :=
  C10_absent_token_always_expired.1 ⟨none, none, none, 5000⟩ 0 rfl

/-! ## Credential store and network-facing auth operations (auth.py)

The network is an explicit input: each operation receives the response(s)
the server would deliver. The credential file is an explicit
`Option CredFile` value (`none` = no session dir configured, or the file
does not exist). -/

/-- Contents of `hermes_credentials.json`, a JSON object. -/
def CredFile := List (String × JVal)

/-- `json.dumps` of a `str | None` field value. -/
def jOfOptStr : Option String → JVal
  | some s => .str s
  | none => .null

/-- Reading back a `str | None` field value (`null` loads as `None`). -/
def asOptStr : JVal → Option (Option String)
  | .str s => some (some s)
  | .null => some none
  | _ => none

/-- The file body written by `_store_credentials` (auth.py lines 283-296):
a JSON object with keys `access_token`, `refresh_token`, `instance_id`,
`expires_at`, taken from the in-memory state just stored. -/
def storedCredFile (s : AuthState) : CredFile :=
  [("access_token", jOfOptStr s.access_token),
   ("refresh_token", jOfOptStr s.refresh_token),
   ("instance_id", jOfOptStr s.instance_id),
   ("expires_at", .num s.expires_at)]

/-- The field assignments of `resume` (auth.py lines 209-213):
`data["access_token"]`, `data["refresh_token"]`, `data["instance_id"]`,
`data["expires_at"]`. `none` models the `KeyError` Python raises on a
missing key (files written by `_store_credentials` always carry all four;
a wrong-typed value, likewise impossible for files this code wrote, is
also mapped to `none`). -/
def loadCreds (f : CredFile) : Option AuthState :=
  match jlookup f "access_token", jlookup f "refresh_token",
        jlookup f "instance_id", jlookup f "expires_at" with
  | some a, some r, some i, some e =>
      match asOptStr a, asOptStr r, asOptStr i, asNum e with
      | some a, some r, some i, some e => some ⟨a, r, i, e⟩
      | _, _, _, _ => none
  | _, _, _, _ => none

/-- `models.AccessAndRefreshToken`: `accessToken: str`, `refreshToken: str`,
`expiresIn: int` (seconds). -/
structure AccessAndRefreshToken where
  accessToken : String
  refreshToken : String
  expiresIn : ℤ
deriving DecidableEq, Repr

/-- `models.AppRegistrationResponse` (the `smsOptInResult` extra, unused by
the state updates, is elided): `instanceId` plus the token pair. -/
structure AppRegistrationResponse where
  instanceId : String
  accessAndRefreshToken : AccessAndRefreshToken
deriving DecidableEq, Repr

/-- Errors an auth operation can raise, as distinct catchable conditions:
`authRequired` is the `RuntimeError("No saved credentials found …")` of
`resume`; `httpStatus c` is the `httpx.HTTPStatusError` that
`raise_for_status()` raises on a non-2xx response with status `c`;
`missingRefreshState` is the `RuntimeError` of `refresh_hermes_token`
when no refresh token / instance id is held; `malformedFile` is the
`KeyError` on a credential file missing a field. -/
inductive AuthError where
  | authRequired
  | httpStatus (code : ℕ)
  | missingRefreshState
  | malformedFile
deriving DecidableEq, Repr

/-- Result of running an auth operation: the in-memory state afterwards,
the credential file afterwards, how many HTTP requests were issued, and
the exception, if one was raised. -/
structure AuthOutcome where
  state : AuthState
  file : Option CredFile
  netCalls : ℕ
  error : Option AuthError

/-- `_store_credentials` (auth.py lines 274-298), state part: sets the four
in-memory fields, with `expires_at = time.time() + tokens.expiresIn`. -/
def store_credentials (now : ℚ) (instance_id : String)
    (tokens : AccessAndRefreshToken) : AuthState :=
  { access_token := some tokens.accessToken,
    refresh_token := some tokens.refreshToken,
    instance_id := some instance_id,
    expires_at := now + (tokens.expiresIn : ℚ) }

/-- `refresh_hermes_token` (auth.py lines 250-270): raises if
`not self.refresh_token or not self.instance_id`; otherwise POSTs
`Registration/App/Refresh` (one network call), raises on non-2xx, and on
success runs `_store_credentials`, which also writes the file when a
session dir is configured. `resp` is the server response: a non-2xx
status code, or a parsed registration body. -/
def refresh_hermes_token (s : AuthState) (now : ℚ) (file : Option CredFile)
    (sessionDirConfigured : Bool)
    (resp : Except ℕ AppRegistrationResponse) : AuthOutcome :=
  if !strTruthy s.refresh_token || !strTruthy s.instance_id then
    ⟨s, file, 0, some .missingRefreshState⟩
  else
    match resp with
    | .error code => ⟨s, file, 1, some (.httpStatus code)⟩
    | .ok reg =>
        let s2 := store_credentials now reg.instanceId reg.accessAndRefreshToken
        ⟨s2, if sessionDirConfigured then some (storedCredFile s2) else file, 1, none⟩

/-- `resume` (auth.py lines 204-228): if the credential file is absent (or
no session dir at all), raise the "No saved credentials" `RuntimeError`
with no network call and no state change; otherwise load the four fields
into memory and, when the loaded token is expired, synchronously call
`refresh_hermes_token`. -/
def resume (s : AuthState) (now : ℚ) (file : Option CredFile)
    (sessionDirConfigured : Bool)
    (refreshResp : Except ℕ AppRegistrationResponse) : AuthOutcome :=
  match file with
  | none => ⟨s, none, 0, some .authRequired⟩
  | some f =>
      match loadCreds f with
      | none => ⟨s, some f, 0, some .malformedFile⟩
      | some loaded =>
          if token_expired loaded now then
            refresh_hermes_token loaded now (some f) sessionDirConfigured refreshResp
          else ⟨loaded, some f, 0, none⟩

/-! ## request_otp (auth.py lines 106-156) -/

/-- `models.NewAppRegistrationResponse`. -/
structure NewAppRegistrationResponse where
  requestId : String
  validUntil : Option String
  attemptsRemaining : Option ℤ
deriving DecidableEq, Repr

/-- `models.OtpRequest`, the value `request_otp` returns. -/
structure OtpRequest where
  request_id : String
  phone_number : String
  device_name : String
  valid_until : Option String
  attempts_remaining : Option ℤ
deriving DecidableEq, Repr

/-- A response to the `POST Registration/App` call: its status code and,
for the 2xx case, the parsed body. -/
structure HttpResp where
  status : ℕ
  body : NewAppRegistrationResponse
deriving DecidableEq, Repr

/-- httpx success range: `raise_for_status()` raises for any non-2xx. -/
def is2xx (c : ℕ) : Bool := 200 ≤ c && c < 300

/-- Observable actions of `request_otp`: an HTTP POST, or `time.sleep`. -/
inductive OtpEvent where
  | post
  | sleepSec (n : ℕ)
deriving DecidableEq, Repr

/-- The `OtpRequest` built from a successful response (auth.py 150-156). -/
def mkOtpRequest (phone devName : String)
    (r : NewAppRegistrationResponse) : OtpRequest :=
  ⟨r.requestId, phone, devName, r.validUntil, r.attemptsRemaining⟩

/-- `request_otp` (auth.py lines 106-156): POST once; if the status is 409,
sleep 30 s and POST exactly once more; then `raise_for_status()` on the
last response. `responses` feeds one server response per POST issued;
`none` means the supplied response list was shorter than the number of
POSTs the code makes (not a real execution). Returns the event trace and
either the parsed `OtpRequest` or the propagated HTTP error status. -/
def request_otp (phone devName : String) :
    List HttpResp → Option (List OtpEvent × Except ℕ OtpRequest)
  | [] => none
  | r1 :: rest =>
      if r1.status = 409 then
        match rest with
        | [] => none
        | r2 :: _ =>
            some ([.post, .sleepSec 30, .post],
              if is2xx r2.status then .ok (mkOtpRequest phone devName r2.body)
              else .error r2.status)
      else
        some ([.post],
          if is2xx r1.status then .ok (mkOtpRequest phone devName r1.body)
          else .error r1.status)

/-- Store/load inversion: the file `_store_credentials` writes loads back
to exactly the in-memory fields that were stored. -/
theorem loadCreds_storedCredFile (s : AuthState) :
    loadCreds (storedCredFile s) = some s := by
  cases s with
  | mk a r i e =>
      cases a <;> cases r <;> cases i <;> rfl

/-! ## Claims C5, C6, C7 -/

/-- C5: `request_otp` POSTs once on a first 2xx response; on a first 409 it
sleeps 30 s and POSTs exactly once more (2 calls), propagating a second
409 as an error with no third attempt; any other non-2xx first response
propagates immediately with no retry. -/
theorem C5_request_otp_retry_policy :
    (∀ (p d : String) (r : HttpResp) (rest : List HttpResp),
        is2xx r.status = true →
        request_otp p d (r :: rest) =
          some ([.post], .ok (mkOtpRequest p d r.body))) ∧
      (∀ (p d : String) (r1 r2 : HttpResp) (rest : List HttpResp),
        r1.status = 409 → is2xx r2.status = true →
        request_otp p d (r1 :: r2 :: rest) =
          some ([.post, .sleepSec 30, .post],
            .ok (mkOtpRequest p d r2.body))) ∧
      (∀ (p d : String) (r1 r2 : HttpResp) (rest : List HttpResp),
        r1.status = 409 → r2.status = 409 →
        request_otp p d (r1 :: r2 :: rest) =
          some ([.post, .sleepSec 30, .post], .error 409)) ∧
      (∀ (p d : String) (r : HttpResp) (rest : List HttpResp),
        is2xx r.status = false → r.status ≠ 409 →
        request_otp p d (r :: rest) = some ([.post], .error r.status)) := by
  refine ⟨?_, ?_, ?_, ?_⟩
  · intro p d r rest h
    have hne : r.status ≠ 409 := by
      simp [is2xx] at h
      omega
    simp [request_otp, hne, h]
  · intro p d r1 r2 rest h1 h2
    simp [request_otp, h1, h2]
  · intro p d r1 r2 rest h1 h2
    simp [request_otp, h1, h2, is2xx]
  · intro p d r rest h2 hne
    simp [request_otp, hne, h2]

/-- C5 witness: a 409 followed by a 200 yields two POSTs separated by a
30-second sleep and a successful `OtpRequest`. -/
theorem C5_request_otp_retry_policy_witness :
    request_otp "+15550100" "garmin-messenger"
        [⟨409, ⟨"old", none, none⟩⟩, ⟨200, ⟨"req1", none, none⟩⟩] =
      some ([.post, .sleepSec 30, .post],
        .ok ⟨"req1", "+15550100", "garmin-messenger", none, none⟩) :=
  C5_request_otp_retry_policy.2.1 "+15550100" "garmin-messenger"
    ⟨409, ⟨"old", none, none⟩⟩ ⟨200, ⟨"req1", none, none⟩⟩ [] rfl (by decide)

/-- C6: `resume` with no credential file raises the distinct
`authRequired` condition (not an HTTP/network error constructor), performs
zero network calls, and leaves the in-memory state unchanged. -/
theorem C6_resume_no_credentials :
    (∀ (s : AuthState) (now : ℚ) (b : Bool)
        (resp : Except ℕ AppRegistrationResponse),
        resume s now none b resp = ⟨s, none, 0, some .authRequired⟩) ∧
      (∀ c, AuthError.authRequired ≠ AuthError.httpStatus c) ∧
      AuthError.authRequired ≠ AuthError.missingRefreshState := by
  refine ⟨fun s now b resp => rfl, fun c => ?_, ?_⟩ <;> simp

/-- C7 counterexample: for an expired stored credential, `resume` refreshes
before returning, so the in-memory state afterwards is the server's new
token pair, not field-for-field what was stored — the claim fails as
universally stated. -/
theorem C7_counterexample :
    (resume ⟨none, none, none, 0⟩ 1000
        (some (storedCredFile ⟨some "a", some "r", some "i", 100⟩)) true
        (.ok ⟨"i2", ⟨"a2", "r2", 3600⟩⟩)).state ≠
      ⟨some "a", some "r", some "i", 100⟩ := by
  have hp : strTruthy (some "a") = true := by decide
  have hr : strTruthy (some "r") = true := by decide
  have hi : strTruthy (some "i") = true := by decide
  have h1 : token_expired ⟨some "a", some "r", some "i", 100⟩ (1000 : ℚ) =
      true := by
    simp [token_expired, hp]
    norm_num
  have h2 : (resume ⟨none, none, none, 0⟩ 1000
      (some (storedCredFile ⟨some "a", some "r", some "i", 100⟩)) true
      (.ok ⟨"i2", ⟨"a2", "r2", 3600⟩⟩)).state =
      ⟨some "a2", some "r2", some "i2", 1000 + ((3600 : ℤ) : ℚ)⟩ := by
    simp [resume, loadCreds_storedCredFile, h1, refresh_hermes_token, hr, hi,
          store_credentials]
  rw [h2]
  intro hcontra
  exact absurd (congrArg AuthState.access_token hcontra) (by decide)

/-- C7 (amended): persisting a credential and loading it back yields
field-for-field equality, and `resume` leaves exactly those fields in
memory with zero network calls, provided the credential is not expired at
resume time (otherwise `resume` refreshes it first, replacing the
fields). -/
theorem C7_credential_roundtrip (cred s : AuthState) (now : ℚ) (b : Bool)
    (resp : Except ℕ AppRegistrationResponse)
    (hfresh : token_expired cred now = false) :
    loadCreds (storedCredFile cred) = some cred ∧
      (resume s now (some (storedCredFile cred)) b resp).state = cred ∧
      (resume s now (some (storedCredFile cred)) b resp).netCalls = 0 ∧
      (resume s now (some (storedCredFile cred)) b resp).error = none := by
  have h := loadCreds_storedCredFile cred
  refine ⟨h, ?_, ?_, ?_⟩ <;> simp [resume, h, hfresh]

/-- C7 witness: a concrete unexpired credential round-trips through the
store and `resume` unchanged. -/
theorem C7_credential_roundtrip_witness :
    (resume ⟨none, none, none, 0⟩ 0
        (some (storedCredFile ⟨some "a", some "r", some "i", 1000⟩)) true
        (.ok ⟨"i2", ⟨"a2", "r2", 3600⟩⟩)).state =
      ⟨some "a", some "r", some "i", 1000⟩ := by
  have hfresh : token_expired ⟨some "a", some "r", some "i", 1000⟩ (0 : ℚ) =
      false := by
    have hp : strTruthy (some "a") = true := by decide
    simp [token_expired, hp]
    norm_num
  exact (C7_credential_roundtrip ⟨some "a", some "r", some "i", 1000⟩
    ⟨none, none, none, 0⟩ 0 true (.ok ⟨"i2", ⟨"a2", "r2", 3600⟩⟩) hfresh).2.1

/-! ## HermesSignalR full-reconnect loop (signalr.py lines 203-245)

The loop interacts with the environment once per iteration: the value of
`self._stopped` read by the `while` condition, the value read right after
`time.sleep(delay)`, and whether the token refresh or the rebuild of this
iteration fails. One `IterEnv` per iteration supplies these; the model
records the observable actions (sleeps with their duration, the failed
token-refresh attempt, the best-effort teardown of the old hub, and the
build/start attempt) as an event trace. -/

/-- `_RECONNECT_BASE_DELAY` (signalr.py line 34). -/
def RECONNECT_BASE_DELAY : ℕ := 5

/-- `_RECONNECT_MAX_DELAY` (signalr.py line 35). -/
def RECONNECT_MAX_DELAY : ℕ := 120

/-- `_RECONNECT_BACKOFF` (signalr.py line 36). -/
def RECONNECT_BACKOFF : ℕ := 2

/-- `delay = min(delay * _RECONNECT_BACKOFF, _RECONNECT_MAX_DELAY)`, the
update applied on both the refresh-failure and the rebuild-failure
paths. -/
def nextDelay (d : ℕ) : ℕ := min (d * RECONNECT_BACKOFF) RECONNECT_MAX_DELAY

/-- What this iteration of the loop body does once it passes both stop
checks: the token refresh raises (`continue` path), the rebuild/start
raises, or the rebuild succeeds (`return` path). A non-expired token or a
successful refresh both fall through to the rebuild, so they need no
separate case. -/
inductive AttemptOutcome where
  | refreshFail
  | rebuildFail
  | success
deriving DecidableEq, Repr

/-- The environment of one loop iteration: the two reads of
`self._stopped` (at the `while` condition and right after the sleep) and
the iteration's outcome. -/
structure IterEnv where
  stoppedAtTop : Bool
  stoppedAfterSleep : Bool
  outcome : AttemptOutcome
deriving DecidableEq, Repr

/-- Observable actions of the loop: `time.sleep(delay)`, a failed token
refresh, the best-effort `self._hub.stop()` teardown, and the
`_build_hub(); hub.start()` attempt. -/
inductive LoopEvent where
  | sleepEv (d : ℕ)
  | refreshFailEv
  | teardownEv
  | buildEv
deriving DecidableEq, Repr

/-- How the loop ended: connection re-established (`return` after a
successful rebuild), exit on the stopped flag, or the supplied
environment ran out while the loop would keep iterating. -/
inductive LoopResult where
  | connected
  | exitedByStop
  | pending
deriving DecidableEq, Repr

/-- `_full_reconnect_loop` (signalr.py lines 203-245) from a given current
`delay`: while not stopped, sleep `delay`, re-check the flag, refresh the
token if needed (failure doubles the delay, capped, and retries), then
tear down and rebuild the hub (failure doubles the delay, capped, and
retries; success returns). -/
def fullReconnectLoopFrom (delay : ℕ) :
    List IterEnv → List LoopEvent × LoopResult
  | [] => ([], .pending)
  | e :: rest =>
      if e.stoppedAtTop then ([], .exitedByStop)
      else if e.stoppedAfterSleep then ([.sleepEv delay], .exitedByStop)
      else
        match e.outcome with
        | .refreshFail =>
            let r := fullReconnectLoopFrom (nextDelay delay) rest
            (.sleepEv delay :: .refreshFailEv :: r.1, r.2)
        | .rebuildFail =>
            let r := fullReconnectLoopFrom (nextDelay delay) rest
            (.sleepEv delay :: .teardownEv :: .buildEv :: r.1, r.2)
        | .success =>
            ([.sleepEv delay, .teardownEv, .buildEv], .connected)

/-- The loop as started by `_schedule_full_reconnect`:
`delay = _RECONNECT_BASE_DELAY`. -/
def full_reconnect_loop (env : List IterEnv) : List LoopEvent × LoopResult :=
  fullReconnectLoopFrom RECONNECT_BASE_DELAY env

/-- The sleep durations of a trace, in order. -/
def sleepsOf : List LoopEvent → List ℕ
  | [] => []
  | .sleepEv d :: rest => d :: sleepsOf rest
  | _ :: rest => sleepsOf rest

/-- The number of rebuild attempts (`_build_hub(); start()`) in a trace. -/
def buildCount : List LoopEvent → ℕ
  | [] => 0
  | .buildEv :: rest => buildCount rest + 1
  | _ :: rest => buildCount rest

/-- An iteration whose rebuild attempt fails, with no stop request. -/
def failIter : IterEnv := ⟨false, false, .rebuildFail⟩

/-- An iteration whose rebuild attempt succeeds, with no stop request. -/
def succIter : IterEnv := ⟨false, false, .success⟩

/-- Pushing one capped doubling inside the cap: the delay reached after a
failure, further multiplied by `2 ^ j` and capped, equals the original
delay multiplied by `2 ^ (j + 1)` and capped. -/
theorem nextDelay_pow (d j : ℕ) :
    min (nextDelay d * 2 ^ j) 120 = min (d * 2 ^ (j + 1)) 120 := by
  rcases le_total (d * 2) 120 with h | h
  · have h1 : nextDelay d = d * 2 := by
      simp [nextDelay, RECONNECT_BACKOFF, RECONNECT_MAX_DELAY, h]
    rw [h1]
    congr 1
    ring
  · have h1 : nextDelay d = 120 := by
      simp [nextDelay, RECONNECT_BACKOFF, RECONNECT_MAX_DELAY, h]
    have hp : 0 < 2 ^ j := pow_pos (by norm_num) j
    have h2 : 120 ≤ 120 * 2 ^ j := Nat.le_mul_of_pos_right 120 hp
    have h3 : 120 ≤ d * 2 ^ (j + 1) := by
      calc 120 ≤ d * 2 := h
        _ ≤ d * 2 * 2 ^ j := Nat.le_mul_of_pos_right _ hp
        _ = d * 2 ^ (j + 1) := by ring
    rw [h1, min_eq_right h2, min_eq_right h3]

/-- One loop iteration on a rebuild failure: sleep, teardown, build, then
recurse with the doubled-and-capped delay. -/
theorem loop_step_fail (d : ℕ) (rest : List IterEnv) :
    fullReconnectLoopFrom d (failIter :: rest) =
      (.sleepEv d :: .teardownEv :: .buildEv ::
          (fullReconnectLoopFrom (nextDelay d) rest).1,
        (fullReconnectLoopFrom (nextDelay d) rest).2) := rfl

/-- One loop iteration on a rebuild success: sleep, teardown, build, and
the loop returns. -/
theorem loop_step_succ (d : ℕ) (rest : List IterEnv) :
    fullReconnectLoopFrom d (succIter :: rest) =
      ([.sleepEv d, .teardownEv, .buildEv], .connected) := rfl

/-- A run of `n` failing iterations followed by a success, from an
arbitrary current delay: it connects, makes `n + 1` rebuild attempts, and
sleeps `d, min (d*2) 120, min (d*4) 120, …` before them. -/
theorem loop_replicate_fail_succ (n : ℕ) : ∀ d : ℕ,
    (fullReconnectLoopFrom d (List.replicate n failIter ++ [succIter])).2 =
        LoopResult.connected ∧
      buildCount (fullReconnectLoopFrom d
        (List.replicate n failIter ++ [succIter])).1 = n + 1 ∧
      sleepsOf (fullReconnectLoopFrom d
        (List.replicate n failIter ++ [succIter])).1 =
        d :: (List.range n).map (fun k => min (d * 2 ^ (k + 1)) 120) := by
  induction n with
  | zero =>
      intro d
      rw [List.replicate_zero, List.nil_append, loop_step_succ]
      exact ⟨rfl, rfl, rfl⟩
  | succ m ih =>
      intro d
      have hr := ih (nextDelay d)
      rw [List.replicate_succ, List.cons_append, loop_step_fail]
      refine ⟨hr.1, ?_, ?_⟩
      · simp only [buildCount]
        rw [hr.2.1]
      · simp only [sleepsOf]
        rw [hr.2.2, List.range_succ_eq_map, List.map_cons, List.map_map]
        refine congrArg (d :: ·) (congrArg₂ (· :: ·) ?_ ?_)
        · simp [nextDelay, RECONNECT_BACKOFF, RECONNECT_MAX_DELAY, pow_one]
        · refine List.map_congr_left fun k _ => ?_
          exact nextDelay_pow d (k + 1)

/-! ## Claims C2 and C3: the rebuild loop -/

/-- C2: with two rebuild failures then a success the loop sleeps 5 s, then
10 s (exactly double), then 20 s, makes exactly 3 rebuild attempts, and
exits on the success, ignoring any further environment; in general `n`
failures before the success give `n + 1` attempts (unbounded retry until
success) with the k-th sleep equal to `min (5 * 2 ^ k) 120` — exponential
backoff, base 5, factor 2, cap 120. -/
theorem C2_reconnect_backoff :
    (∀ extra : List IterEnv,
        full_reconnect_loop ([failIter, failIter, succIter] ++ extra) =
          ([.sleepEv 5, .teardownEv, .buildEv, .sleepEv 10, .teardownEv,
            .buildEv, .sleepEv 20, .teardownEv, .buildEv], .connected)) ∧
      (∀ n : ℕ,
        (full_reconnect_loop (List.replicate n failIter ++ [succIter])).2 =
            LoopResult.connected ∧
          buildCount (full_reconnect_loop
            (List.replicate n failIter ++ [succIter])).1 = n + 1 ∧
          sleepsOf (full_reconnect_loop
            (List.replicate n failIter ++ [succIter])).1 =
            (List.range (n + 1)).map (fun k => min (5 * 2 ^ k) 120)) := by
  constructor
  · intro extra
    rfl
  · intro n
    have h := loop_replicate_fail_succ n RECONNECT_BASE_DELAY
    refine ⟨h.1, h.2.1, ?_⟩
    unfold full_reconnect_loop
    rw [h.2.2, List.range_succ_eq_map, List.map_cons, List.map_map]
    refine congrArg₂ (· :: ·) (by norm_num [RECONNECT_BASE_DELAY]) ?_
    refine List.map_congr_left fun k _ => ?_
    simp [RECONNECT_BASE_DELAY, Function.comp]

/-- C3: if `stop()` lands while the loop is inside a sleep (the flag was
still false at the top of the iteration, and is true when the sleep
wakes), the loop exits right after waking: the trace of that iteration is
the sleep alone — no token refresh, no teardown, no build attempt — and
the result is exit-by-stop, whatever environment would have followed. -/
theorem C3_stop_during_sleep (delay : ℕ) (e : IterEnv) (rest : List IterEnv)
    (htop : e.stoppedAtTop = false) (hsleep : e.stoppedAfterSleep = true) :
    fullReconnectLoopFrom delay (e :: rest) =
      ([.sleepEv delay], .exitedByStop) := by
  simp [fullReconnectLoopFrom, htop, hsleep]

/-- C3 witness: concrete stop-during-sleep iteration, with environment for
two more would-be iterations that never run. -/
theorem C3_stop_during_sleep_witness :
    fullReconnectLoopFrom 5 [⟨false, true, .success⟩, failIter, succIter] =
      ([.sleepEv 5], .exitedByStop) :=
  C3_stop_during_sleep 5 ⟨false, true, .success⟩ [failIter, succIter] rfl rfl

/-! ## Claim C4: at most one reconnect loop (signalr.py lines 191-201) -/

/-- The scheduling state: `thread` models `self._reconnect_thread`
(`none` = `None`; `some alive` = a thread object whose `is_alive()`
returns `alive`), and `runningLoops` counts `_full_reconnect_loop`
executions currently running. -/
structure ReconnectSched where
  thread : Option Bool
  runningLoops : ℕ
deriving DecidableEq, Repr

/-- `self._reconnect_thread is not None and self._reconnect_thread.is_alive()`. -/
def threadAlive : Option Bool → Bool
  | some true => true
  | _ => false

/-- `_schedule_full_reconnect` (signalr.py lines 191-201): return without
doing anything when a reconnect thread is already alive; otherwise create
and start a new thread running `_full_reconnect_loop`. -/
def schedule_full_reconnect (s : ReconnectSched) : ReconnectSched :=
  if threadAlive s.thread then s
  else ⟨some true, s.runningLoops + 1⟩

/-- Transitions of the scheduling state: a call to
`_schedule_full_reconnect`, or the running loop returning (its thread
then reports not-alive). -/
inductive SchedStep : ReconnectSched → ReconnectSched → Prop
  | schedule (s : ReconnectSched) : SchedStep s (schedule_full_reconnect s)
  | loopExit (s : ReconnectSched) : threadAlive s.thread = true →
      SchedStep s ⟨some false, s.runningLoops - 1⟩

/-- States reachable from the freshly constructed channel
(`_reconnect_thread = None`, no loop running). -/
inductive SchedReachable : ReconnectSched → Prop
  | init : SchedReachable ⟨none, 0⟩
  | step {s t : ReconnectSched} : SchedReachable s → SchedStep s t →
      SchedReachable t

/-- In every reachable state the loop count is exactly the aliveness bit. -/
theorem sched_invariant {s : ReconnectSched} (h : SchedReachable s) :
    s.runningLoops = if threadAlive s.thread then 1 else 0 := by
  induction h with
  | init => rfl
  | step hr hs ih =>
      rename_i u v
      cases hs with
      | schedule =>
          by_cases hb : threadAlive u.thread
          · simp [schedule_full_reconnect, hb, ih]
          · have he : schedule_full_reconnect u =
                ⟨some true, u.runningLoops + 1⟩ := by
              simp [schedule_full_reconnect, hb]
            have h0 : u.runningLoops = 0 := by rw [ih, if_neg hb]
            rw [he, h0]
            rfl
      | loopExit hu =>
          simp only [hu] at ih
          simp only [ih, if_true]
          simp [threadAlive]

/-- C4: in every reachable state at most one reconnect loop is running,
calling the scheduler while the thread is alive is a no-op, and scheduling
never pushes the count above one. -/
theorem C4_single_reconnect_loop {s : ReconnectSched}
    (h : SchedReachable s) :
    s.runningLoops ≤ 1 ∧
      (threadAlive s.thread = true → schedule_full_reconnect s = s) ∧
      (schedule_full_reconnect s).runningLoops ≤ 1 := by
  have hinv := sched_invariant h
  refine ⟨?_, ?_, ?_⟩
  · rw [hinv]
    by_cases hb : threadAlive s.thread <;> simp [hb]
  · intro hb
    simp [schedule_full_reconnect, hb]
  · by_cases hb : threadAlive s.thread
    · have he : schedule_full_reconnect s = s := by
        simp [schedule_full_reconnect, hb]
      rw [he, hinv]
      simp [hb]
    · have h0 : s.runningLoops = 0 := by rw [hinv, if_neg hb]
      simp [schedule_full_reconnect, hb, h0]

/-- C4 witness: the state with an alive reconnect thread reached by one
schedule call from the initial state; scheduling there changes nothing and
the loop count stays at one. -/
theorem C4_single_reconnect_loop_witness :
    schedule_full_reconnect ⟨some true, 1⟩ = ⟨some true, 1⟩ ∧
      (1 : ℕ) ≤ 1 := by
  have h0 : SchedReachable ⟨none, 0⟩ := .init
  have h1 : SchedReachable (schedule_full_reconnect ⟨none, 0⟩) :=
    .step h0 (SchedStep.schedule ⟨none, 0⟩)
  have h2 : SchedReachable ⟨some true, 1⟩ := h1
  have h := C4_single_reconnect_loop h2
  exact ⟨h.2.1 rfl, h.1⟩

/-! ## Wire models and their pydantic validation (models.py)

Each pydantic model becomes a structure with a decode function from a
`JVal`. A required field must be present and valid; an `Optional` field
defaults to `none` when absent, accepts JSON `null`, and fails validation
when present with an invalid value. `datetime` fields are kept as their
wire strings (the claims never exercise datetime parsing). -/

/-- `models.MessageStatus` (a `str` enum). -/
inductive MessageStatus where
  | INITIALIZED
  | PROCESSING
  | SENT
  | DELIVERED
  | READ
  | UNDELIVERABLE
  | RETRYABLE_ERROR
  | DELETED
  | EXPIRED
  | UNINITIALIZED
deriving DecidableEq, Repr

def parseMessageStatus : String → Option MessageStatus
  | "Initialized" => some .INITIALIZED
  | "Processing" => some .PROCESSING
  | "Sent" => some .SENT
  | "Delivered" => some .DELIVERED
  | "Read" => some .READ
  | "Undeliverable" => some .UNDELIVERABLE
  | "RetryableError" => some .RETRYABLE_ERROR
  | "Deleted" => some .DELETED
  | "Expired" => some .EXPIRED
  | "Uninitialized" => some .UNINITIALIZED
  | _ => none

/-- `models.DeviceType` (a `str` enum). -/
inductive DeviceType where
  | MESSENGER_APP
  | INREACH
  | UNKNOWN
  | EXTERNAL
  | GARMIN_OS_APP
deriving DecidableEq, Repr

def parseDeviceType : String → Option DeviceType
  | "MessengerApp" => some .MESSENGER_APP
  | "inReach" => some .INREACH
  | "Unknown" => some .UNKNOWN
  | "External" => some .EXTERNAL
  | "GarminOSApp" => some .GARMIN_OS_APP
  | _ => none

/-- `models.HermesMessageType` (a `str` enum). -/
inductive HermesMessageType where
  | UNKNOWN
  | MAPSHARE
  | REFERENCE_POINT
deriving DecidableEq, Repr

def parseHermesMessageType : String → Option HermesMessageType
  | "Unknown" => some .UNKNOWN
  | "MapShare" => some .MAPSHARE
  | "ReferencePoint" => some .REFERENCE_POINT
  | _ => none

/-- `models.MediaType` (a `str` enum). -/
inductive MediaType where
  | IMAGE_AVIF
  | AUDIO_OGG
deriving DecidableEq, Repr

def parseMediaType : String → Option MediaType
  | "ImageAvif" => some .IMAGE_AVIF
  | "AudioOgg" => some .AUDIO_OGG
  | _ => none

def isHexDigit (c : Char) : Bool :=
  c.isDigit || (('a' ≤ c) && (c ≤ 'f')) || (('A' ≤ c) && (c ≤ 'F'))

/-- The canonical 8-4-4-4-12 textual UUID shape pydantic's `UUID` fields
accept from a string. -/
def isUuidString (s : String) : Bool :=
  let cs := s.toList
  cs.length == 36 &&
    (List.range 36).all fun i =>
      match cs.get? i with
      | some c =>
          if i = 8 || i = 13 || i = 18 || i = 23 then c == '-'
          else isHexDigit c
      | none => false

/-- A `UUID`-typed field: a string in UUID shape (kept as the string). -/
def decodeUUID : JVal → Option String
  | .str s => if isUuidString s then some s else none
  | _ => none

/-- An `int`-typed field: a JSON number with denominator 1. -/
def asInt : JVal → Option ℤ
  | .num q => if q.den = 1 then some q.num else none
  | _ => none

def decodeDeviceType (v : JVal) : Option DeviceType :=
  asStr v >>= parseDeviceType

def decodeMessageStatusVal (v : JVal) : Option MessageStatus :=
  asStr v >>= parseMessageStatus

def decodeHermesMessageType (v : JVal) : Option HermesMessageType :=
  asStr v >>= parseHermesMessageType

def decodeMediaType (v : JVal) : Option MediaType :=
  asStr v >>= parseMediaType

/-- Validation of an `Optional` field value that is present: JSON `null`
is accepted as `None`; otherwise the inner validator must succeed. -/
def decodeOptJVal {α : Type} (dec : JVal → Option α) : JVal → Option (Option α)
  | .null => some none
  | v => (dec v).map some

/-- pydantic `AliasChoices` lookup: try the alias keys in order; the first
key present in the payload is used; if none is, the field defaults to
`None`. -/
def decodeAliasField {α : Type} (dec : JVal → Option α)
    (fields : List (String × JVal)) : List String → Option (Option α)
  | [] => some none
  | k :: ks =>
      match jlookup fields k with
      | some v => decodeOptJVal dec v
      | none => decodeAliasField dec fields ks

/-- An `Optional` field with a single wire key. -/
def decodeOptField {α : Type} (dec : JVal → Option α)
    (fields : List (String × JVal)) (key : String) : Option (Option α) :=
  decodeAliasField dec fields [key]

/-- `models.SimpleCompoundMessageId`: required `messageId` and
`conversationId` UUIDs. -/
structure SimpleCompoundMessageId where
  messageId : String
  conversationId : String
deriving DecidableEq, Repr

def decodeSimpleCompoundMessageId : JVal → Option SimpleCompoundMessageId
  | .obj fields => do
      let m ← jlookup fields "messageId" >>= decodeUUID
      let c ← jlookup fields "conversationId" >>= decodeUUID
      some ⟨m, c⟩
  | _ => none

/-- `models.UserLocation`: five optional floats. -/
structure UserLocation where
  latitudeDegrees : Option ℚ
  longitudeDegrees : Option ℚ
  elevationMeters : Option ℚ
  groundVelocityMetersPerSecond : Option ℚ
  courseDegrees : Option ℚ
deriving DecidableEq, Repr

def decodeUserLocation : JVal → Option UserLocation
  | .obj fields => do
      let lat ← decodeOptField asNum fields "latitudeDegrees"
      let lon ← decodeOptField asNum fields "longitudeDegrees"
      let elev ← decodeOptField asNum fields "elevationMeters"
      let vel ← decodeOptField asNum fields "groundVelocityMetersPerSecond"
      let course ← decodeOptField asNum fields "courseDegrees"
      some ⟨lat, lon, elev, vel, course⟩
  | _ => none

/-- `models.StatusReceipt`: required `userId` (plain string) and
`messageStatus`, optional rest. -/
structure StatusReceipt where
  userId : String
  appOrDeviceInstanceId : Option String
  deviceType : Option DeviceType
  messageStatus : MessageStatus
  updatedAt : Option String
deriving DecidableEq, Repr

def decodeStatusReceipt : JVal → Option StatusReceipt
  | .obj fields => do
      let uid ← jlookup fields "userId" >>= asStr
      let app ← decodeOptField asStr fields "appOrDeviceInstanceId"
      let dt ← decodeOptField decodeDeviceType fields "deviceType"
      let ms ← jlookup fields "messageStatus" >>= decodeMessageStatusVal
      let ua ← decodeOptField asStr fields "updatedAt"
      some ⟨uid, app, dt, ms, ua⟩
  | _ => none

/-- `models.MediaMetadata`: three optional ints. -/
structure MediaMetadata where
  width : Option ℤ
  height : Option ℤ
  durationMs : Option ℤ
deriving DecidableEq, Repr

def decodeMediaMetadata : JVal → Option MediaMetadata
  | .obj fields => do
      let w ← decodeOptField asInt fields "width"
      let h ← decodeOptField asInt fields "height"
      let d ← decodeOptField asInt fields "durationMs"
      some ⟨w, h, d⟩
  | _ => none

def decodeStrList : JVal → Option (List String)
  | .arr es => es.mapM asStr
  | _ => none

def decodeStatusReceiptList : JVal → Option (List StatusReceipt)
  | .arr es => es.mapM decodeStatusReceipt
  | _ => none

/-- `models.MessageStatusUpdate` (models.py lines 411-420): required
`messageId`; `messageStatus` is optional with
`AliasChoices("messageStatus", "status")`, so the wire key
`messageStatus` is consulted before `status`. -/
structure MessageStatusUpdate where
  messageId : SimpleCompoundMessageId
  userId : Option String
  deviceInstanceId : Option String
  deviceType : Option DeviceType
  messageStatus : Option MessageStatus
  updatedAt : Option String
deriving DecidableEq, Repr

def decodeMessageStatusUpdate : JVal → Option MessageStatusUpdate
  | .obj fields => do
      let mid ← jlookup fields "messageId" >>= decodeSimpleCompoundMessageId
      let uid ← decodeOptField decodeUUID fields "userId"
      let dev ← decodeOptField decodeUUID fields "deviceInstanceId"
      let dt ← decodeOptField decodeDeviceType fields "deviceType"
      let ms ← decodeAliasField decodeMessageStatusVal fields
        ["messageStatus", "status"]
      let ua ← decodeOptField asStr fields "updatedAt"
      some ⟨mid, uid, dev, dt, ms, ua⟩
  | _ => none

/-- `models.MessageModel` (models.py lines 128-162): required `messageId`
and `conversationId`; everything else optional. `from_` carries
`alias="from"` with `populate_by_name`, so both wire spellings are
accepted; the `to` field is named `to_` here because `to` is reserved. -/
structure MessageModel where
  messageId : String
  conversationId : String
  parentMessageId : Option String
  messageBody : Option String
  to_ : Option (List String)
  from_ : Option String
  sentAt : Option String
  receivedAt : Option String
  status : Option (List StatusReceipt)
  userLocation : Option UserLocation
  referencePoint : Option UserLocation
  messageType : Option HermesMessageType
  mapShareUrl : Option String
  mapSharePassword : Option String
  liveTrackUrl : Option String
  fromDeviceType : Option DeviceType
  mediaId : Option String
  mediaType : Option MediaType
  mediaMetadata : Option MediaMetadata
  uuid : Option String
  transcription : Option String
  otaUuid : Option String
  fromUnitId : Option String
  intendedUnitId : Option String
deriving DecidableEq, Repr

/-- First 8 fields of `MessageModel`, validated as a group (the validator
is staged in thirds purely to keep the compiled bind chains short; the
three stages read disjoint keys of the same payload). -/
structure MessageModelA where
  messageId : String
  conversationId : String
  parentMessageId : Option String
  messageBody : Option String
  to_ : Option (List String)
  from_ : Option String
  sentAt : Option String
  receivedAt : Option String
deriving DecidableEq, Repr

def decodeMessageModelA (fields : List (String × JVal)) :
    Option MessageModelA := do
  let mid ← jlookup fields "messageId" >>= decodeUUID
  let cid ← jlookup fields "conversationId" >>= decodeUUID
  let pmid ← decodeOptField decodeUUID fields "parentMessageId"
  let body ← decodeOptField asStr fields "messageBody"
  let toF ← decodeOptField decodeStrList fields "to"
  let fromF ← decodeAliasField asStr fields ["from", "from_"]
  let sentA ← decodeOptField asStr fields "sentAt"
  let recvA ← decodeOptField asStr fields "receivedAt"
  some ⟨mid, cid, pmid, body, toF, fromF, sentA, recvA⟩

/-- Middle 8 fields of `MessageModel`. -/
structure MessageModelB where
  status : Option (List StatusReceipt)
  userLocation : Option UserLocation
  referencePoint : Option UserLocation
  messageType : Option HermesMessageType
  mapShareUrl : Option String
  mapSharePassword : Option String
  liveTrackUrl : Option String
  fromDeviceType : Option DeviceType
deriving DecidableEq, Repr

def decodeMessageModelB (fields : List (String × JVal)) :
    Option MessageModelB := do
  let st ← decodeOptField decodeStatusReceiptList fields "status"
  let uloc ← decodeOptField decodeUserLocation fields "userLocation"
  let rpt ← decodeOptField decodeUserLocation fields "referencePoint"
  let mtype ← decodeOptField decodeHermesMessageType fields "messageType"
  let msu ← decodeOptField asStr fields "mapShareUrl"
  let msp ← decodeOptField asStr fields "mapSharePassword"
  let ltu ← decodeOptField asStr fields "liveTrackUrl"
  let fdt ← decodeOptField decodeDeviceType fields "fromDeviceType"
  some ⟨st, uloc, rpt, mtype, msu, msp, ltu, fdt⟩

/-- Last 8 fields of `MessageModel`. -/
structure MessageModelC where
  mediaId : Option String
  mediaType : Option MediaType
  mediaMetadata : Option MediaMetadata
  uuid : Option String
  transcription : Option String
  otaUuid : Option String
  fromUnitId : Option String
  intendedUnitId : Option String
deriving DecidableEq, Repr

def decodeMessageModelC (fields : List (String × JVal)) :
    Option MessageModelC := do
  let mdid ← decodeOptField decodeUUID fields "mediaId"
  let mdt ← decodeOptField decodeMediaType fields "mediaType"
  let mm ← decodeOptField decodeMediaMetadata fields "mediaMetadata"
  let uu ← decodeOptField decodeUUID fields "uuid"
  let tr ← decodeOptField asStr fields "transcription"
  let ota ← decodeOptField decodeUUID fields "otaUuid"
  let fui ← decodeOptField asStr fields "fromUnitId"
  let iui ← decodeOptField asStr fields "intendedUnitId"
  some ⟨mdid, mdt, mm, uu, tr, ota, fui, iui⟩

def decodeMessageModel : JVal → Option MessageModel
  | .obj fields => do
      let a ← decodeMessageModelA fields
      let b ← decodeMessageModelB fields
      let c ← decodeMessageModelC fields
      some ⟨a.messageId, a.conversationId, a.parentMessageId, a.messageBody,
            a.to_, a.from_, a.sentAt, a.receivedAt, b.status, b.userLocation,
            b.referencePoint, b.messageType, b.mapShareUrl,
            b.mapSharePassword, b.liveTrackUrl, b.fromDeviceType, c.mediaId,
            c.mediaType, c.mediaMetadata, c.uuid, c.transcription, c.otaUuid,
            c.fromUnitId, c.intendedUnitId⟩
  | _ => none

/-! ## Event dispatch (signalr.py internal handlers) -/

/-- Outcome of one `_handle_message` call: the registered handler received
the decoded message, or the event was logged and dropped (decode failure,
empty argument list, or no handler registered). The function is total —
the `try/except` in the handler means no exception escapes the dispatch
call. -/
inductive DispatchResult where
  | delivered (m : MessageModel)
  | dropped
deriving DecidableEq, Repr

/-- `HermesSignalR._handle_message` (signalr.py lines 295-303):
`data = args[0] if args else args` (validating a bare empty list always
fails), then `MessageModel.model_validate(data)`; on success the
registered handler, if any, is invoked; every exception is caught. -/
def handle_message (handlerRegistered : Bool) (args : List JVal) :
    DispatchResult :=
  match args with
  | [] => .dropped
  | a :: _ =>
      match decodeMessageModel a with
      | none => .dropped
      | some m => if handlerRegistered then .delivered m else .dropped

/-- A sequence of `ReceiveMessage` deliveries from the transport, in
order: the messages the registered handler receives, in order. -/
def dispatchMessages (handlerRegistered : Bool)
    (events : List (List JVal)) : List MessageModel :=
  events.filterMap fun args =>
    match handle_message handlerRegistered args with
    | .delivered m => some m
    | .dropped => none

/-! ## Claims C8 and C9: event decoding and dispatch -/

/-- C8: a status-update payload carrying only the wire key `status` with
value `"Delivered"` decodes with `messageStatus = DELIVERED`; one carrying
both `status: "Delivered"` and `messageStatus: "Read"` decodes with
`messageStatus = READ` — the `messageStatus` spelling wins. -/
theorem C8_status_update_alias :
    decodeMessageStatusUpdate (.obj
        [("messageId", .obj
            [("messageId", .str "11111111-1111-1111-1111-111111111111"),
             ("conversationId", .str "22222222-2222-2222-2222-222222222222")]),
         ("status", .str "Delivered")]) =
      some ⟨⟨"11111111-1111-1111-1111-111111111111",
             "22222222-2222-2222-2222-222222222222"⟩,
            none, none, none, some .DELIVERED, none⟩ ∧
      decodeMessageStatusUpdate (.obj
        [("messageId", .obj
            [("messageId", .str "11111111-1111-1111-1111-111111111111"),
             ("conversationId", .str "22222222-2222-2222-2222-222222222222")]),
         ("status", .str "Delivered"),
         ("messageStatus", .str "Read")]) =
      some ⟨⟨"11111111-1111-1111-1111-111111111111",
             "22222222-2222-2222-2222-222222222222"⟩,
            none, none, none, some .READ, none⟩ := by
  exact ⟨rfl, rfl⟩

/-- C9: a `ReceiveMessage` event whose payload fails `MessageModel`
validation is dropped — the handler is not invoked and the (total)
dispatch function returns instead of raising — an empty argument list is
likewise dropped, and a later well-formed event is still decoded and
handed to the registered handler. -/
theorem C9_malformed_message_dropped :
    (∀ (r : Bool) (a : JVal) (rest : List JVal),
        decodeMessageModel a = none →
        handle_message r (a :: rest) = .dropped) ∧
      (∀ r : Bool, handle_message r [] = .dropped) ∧
      dispatchMessages true
          [[.obj [("messageBody", .str "hi")]],
           [.obj [("messageId", .str "11111111-1111-1111-1111-111111111111"),
                  ("conversationId",
                    .str "22222222-2222-2222-2222-222222222222"),
                  ("messageBody", .str "hi")]]] =
        [⟨"11111111-1111-1111-1111-111111111111",
          "22222222-2222-2222-2222-222222222222",
          none, some "hi", none, none, none, none, none, none, none, none,
          none, none, none, none, none, none, none, none, none, none, none,
          none⟩] := by
  refine ⟨?_, fun r => rfl, rfl⟩
  intro r a rest h
  simp [handle_message, h]

/-- C9 witness: the malformed payload missing both id fields is dropped by
a dispatch with a registered handler. -/
theorem C9_malformed_message_dropped_witness :
    handle_message true [.obj [("messageBody", .str "hi")]] = .dropped :=
  C9_malformed_message_dropped.1 true (.obj [("messageBody", .str "hi")])
    [] rfl

end GarminMessenger
